import Mathlib

/-!
Verification of the box-and-marble puzzle core (`src/box-and-marble-script.js`).

The embedding models the two core pieces of the program:

* the puzzle configuration generator (`generatePuzzleConfiguration`,
  `tryGenerateValidConfiguration`, `assignContentToBox`, `assignLabelToBox`,
  `setFallbackConfiguration`), with the JS random shuffles made explicit:
  each randomized attempt is represented by the pair of shuffled lists the
  attempt works from, and a whole run by the list of those pairs (one per
  attempt), of which the loop consumes at most `MAX_ATTEMPTS`;

* the evaluator (`calculateResults`, `getCorrectLabelForBox`,
  `checkContentsMatchLabel`), with the player's dropdown selections
  (`GameState.userLabelSelections`) modelled as a function from box id to
  the selected label string (the empty string standing for "unassigned",
  exactly as in the script's initial state).

Strings stay strings: label normalization (`toLowerCase` plus a
first-occurrence `replace`) is reproduced character by character.
-/

/-- The `GAME_CONFIG` constant object of the script. -/
structure GameConfig where
  BOX_LABELS : List String
  BOX_CONTENTS : List String
  MAX_ATTEMPTS : Nat
  BOX_COUNT : Nat
deriving Repr

def GAME_CONFIG : GameConfig :=
  ⟨["White and White", "Red and Red", "Red and White"],
   ["white-white", "red-red", "red-white"],
   50,
   3⟩

def BOX_IDS : List String := ["matchbox-1", "matchbox-2", "matchbox-3"]

/-- A box of `GameState.boxes`: id, contents string, displayed label string.
The `element` field (a DOM node) is presentation-layer and is not modelled. -/
structure Box where
  id : String
  contents : String
  label : String
deriving DecidableEq, Repr

/-- Does the character-list pattern occur as an initial segment of the text? -/
def matchesAt : List Char → List Char → Bool
  | [], _ => true
  | _ :: _, [] => false
  | p :: ps, c :: cs => p == c && matchesAt ps cs

/-- Replace the first occurrence of `pat` by `rep`, as JS
`String.prototype.replace` does with a string pattern. -/
def replaceFirstList (pat rep : List Char) : List Char → List Char
  | [] => []
  | c :: cs =>
    if matchesAt pat (c :: cs) then rep ++ (c :: cs).drop pat.length
    else c :: replaceFirstList pat rep cs

/-- JS `toLowerCase`, character by character (ASCII input). -/
def jsToLowerCase (s : String) : String :=
  String.mk (s.toList.map Char.toLower)

/-- `checkContentsMatchLabel(box)`: normalize the label
(`label.toLowerCase().replace(' and ', '-')`) and compare to the contents. -/
def checkContentsMatchLabel (box : Box) : Bool :=
  let normalizedLabel :=
    String.mk (replaceFirstList " and ".toList "-".toList (jsToLowerCase box.label).toList)
  normalizedLabel == box.contents

/-- `getCorrectLabelForBox(box)`: the 3-entry contents-to-label lookup, with
`|| ''` turning an absent key (`undefined`) into the empty string. This
simplified model covers own-property hits and genuinely absent keys — the
whole domain the program exercises; JS bracket lookup additionally falls
through to names inherited from `Object.prototype`, which
`getCorrectLabelForBoxJs` below refines, and the two coincide away from those
names (`getCorrectLabelForBoxJs_agrees`). -/
def getCorrectLabelForBox (box : Box) : String :=
  if box.contents == "white-white" then "White and White"
  else if box.contents == "red-red" then "Red and Red"
  else if box.contents == "red-white" then "Red and White"
  else ""

/-- Property names a bracket lookup on a plain object literal finds inherited
from `Object.prototype`; each of their values (a built-in function, or for
`__proto__` the prototype object itself) is truthy, so `|| ''` keeps it. -/
def objectPrototypeProps : List String :=
  ["constructor", "hasOwnProperty", "isPrototypeOf", "propertyIsEnumerable",
   "toLocaleString", "toString", "valueOf",
   "__defineGetter__", "__defineSetter__", "__lookupGetter__", "__lookupSetter__",
   "__proto__"]

/-- A JS value the expression `contentsToLabel[box.contents] || ''` can
produce: a string (an own-property label or the `''` fallback), or the truthy
non-string member inherited from `Object.prototype` under the given name. -/
inductive JsLookupValue where
  | str : String → JsLookupValue
  | protoMember : String → JsLookupValue
deriving DecidableEq, Repr

/-- `getCorrectLabelForBox(box)` as the JS engine evaluates it: bracket
lookup first finds the three own properties, then falls through the prototype
chain to `Object.prototype` members (truthy, so `|| ''` keeps them), and only
a genuinely absent key gives `undefined` and hence `''`. -/
def getCorrectLabelForBoxJs (box : Box) : JsLookupValue :=
  if box.contents == "white-white" then .str "White and White"
  else if box.contents == "red-red" then .str "Red and Red"
  else if box.contents == "red-white" then .str "Red and White"
  else if objectPrototypeProps.contains box.contents then .protoMember box.contents
  else .str ""

/-- One entry of `results.details` in `calculateResults`. -/
structure ResultDetail where
  boxId : String
  boxNumber : Nat
  userSelection : String
  correctLabel : String
  actualContents : String
  isCorrect : Bool
deriving DecidableEq, Repr

/-- The `results` object of `calculateResults`. -/
structure Results where
  correct : Nat
  total : Nat
  details : List ResultDetail
deriving DecidableEq, Repr

/-- The body of the `GameState.boxes.forEach((box, index) => ...)` loop of
`calculateResults`, building the details list; `idx` is the running index. -/
def calculateDetails (selections : String → String) : Nat → List Box → List ResultDetail
  | _, [] => []
  | idx, box :: rest =>
    ⟨box.id, idx + 1, selections box.id, getCorrectLabelForBox box, box.contents,
      selections box.id == getCorrectLabelForBox box⟩
      :: calculateDetails selections (idx + 1) rest

/-- `calculateResults()`: per-box comparison of the user's selection against
the derived correct label; `correct` counts the matches, `total` is the
number of boxes. -/
def calculateResults (boxes : List Box) (selections : String → String) : Results :=
  let details := calculateDetails selections 0 boxes
  ⟨(details.filter (fun d => d.isCorrect)).length, boxes.length, details⟩

/-- `assignContentToBox`: scan the shuffled contents for the first one not in
the used set; return it together with the updated used set. -/
def assignContentToBox (shuffledContents usedContents : List String) :
    Option (String × List String) :=
  match shuffledContents with
  | [] => none
  | c :: rest =>
    if usedContents.contains c then assignContentToBox rest usedContents
    else some (c, c :: usedContents)

/-- `assignLabelToBox`: scan the shuffled labels for the first one that is
unused and does NOT truthfully describe the box's contents. -/
def assignLabelToBox (contents : String) (shuffledLabels usedLabels : List String) :
    Option (String × List String) :=
  match shuffledLabels with
  | [] => none
  | l :: rest =>
    if usedLabels.contains l then assignLabelToBox contents rest usedLabels
    else if checkContentsMatchLabel ⟨"", contents, l⟩ then
      assignLabelToBox contents rest usedLabels
    else some (l, l :: usedLabels)

/-- The `for (const box of GameState.boxes)` loop of
`tryGenerateValidConfiguration`: walk the box ids, assigning each a content
and then a mismatching label, threading both used sets. -/
def assignBoxes (shuffledContents shuffledLabels : List String) :
    List String → List String → List String → Option (List Box)
  | [], _, _ => some []
  | id :: ids, usedC, usedL =>
    match assignContentToBox shuffledContents usedC with
    | none => none
    | some (c, usedC2) =>
      match assignLabelToBox c shuffledLabels usedL with
      | none => none
      | some (l, usedL2) =>
        match assignBoxes shuffledContents shuffledLabels ids usedC2 usedL2 with
        | none => none
        | some boxes => some (⟨id, c, l⟩ :: boxes)

/-- `tryGenerateValidConfiguration()`, with the two `Math.random`-driven
shuffles passed in explicitly: `some boxes` when the attempt assigned all
three boxes (the function returned `true`), `none` when it failed. -/
def tryGenerateValidConfiguration (shuffledContents shuffledLabels : List String) :
    Option (List Box) :=
  assignBoxes shuffledContents shuffledLabels BOX_IDS [] []

/-- `setFallbackConfiguration()`: the hardcoded guaranteed-valid assignment. -/
def setFallbackConfiguration : List Box :=
  [⟨"matchbox-1", "white-white", "Red and Red"⟩,
   ⟨"matchbox-2", "red-red", "Red and White"⟩,
   ⟨"matchbox-3", "red-white", "White and White"⟩]

/-- The `while (attempts < maxAttempts)` loop of `generatePuzzleConfiguration`
over an explicit list of per-attempt shuffles: first successful attempt wins,
exhaustion falls back. -/
def generatePuzzleConfigurationAux : List (List String × List String) → List Box
  | [] => setFallbackConfiguration
  | p :: rest =>
    match tryGenerateValidConfiguration p.1 p.2 with
    | some boxes => boxes
    | none => generatePuzzleConfigurationAux rest

/-- `generatePuzzleConfiguration()`: run at most `MAX_ATTEMPTS` randomized
attempts (the random source supplies one shuffle pair per attempt), then
fall back. -/
def generatePuzzleConfiguration (randomAttempts : List (List String × List String)) :
    List Box :=
  generatePuzzleConfigurationAux (randomAttempts.take GAME_CONFIG.MAX_ATTEMPTS)

/-- Number of `tryGenerateValidConfiguration` calls the loop performs on a
given run of the random source. -/
def generateAttemptCountAux : List (List String × List String) → Nat
  | [] => 0
  | p :: rest =>
    match tryGenerateValidConfiguration p.1 p.2 with
    | some _ => 1
    | none => 1 + generateAttemptCountAux rest

def generateAttemptCount (randomAttempts : List (List String × List String)) : Nat :=
  generateAttemptCountAux (randomAttempts.take GAME_CONFIG.MAX_ATTEMPTS)

/-- The three configuration invariants of spec section 3: the contents are a
permutation of the three content kinds, the labels a permutation of the three
label kinds, and every box's displayed label differs from the label derived
from its contents. -/
def validConfiguration (boxes : List Box) : Prop :=
  List.Perm (boxes.map fun b => b.contents) GAME_CONFIG.BOX_CONTENTS ∧
  List.Perm (boxes.map fun b => b.label) GAME_CONFIG.BOX_LABELS ∧
  ∀ b ∈ boxes, b.label ≠ getCorrectLabelForBox b

instance (boxes : List Box) : Decidable (validConfiguration boxes) := by
  unfold validConfiguration
  exact inferInstance

/-- Validity of one attempt's outcome: a failed attempt is vacuously fine, a
successful one must produce a valid configuration. -/
def attemptOutcomeValid (o : Option (List Box)) : Prop :=
  match o with
  | none => True
  | some boxes => validConfiguration boxes

instance : (o : Option (List Box)) → Decidable (attemptOutcomeValid o)
  | none => isTrue trivial
  | some boxes => inferInstanceAs (Decidable (validConfiguration boxes))

/-- An incomplete selection map used as a concrete evaluator input:
`matchbox-1` is left unassigned (empty string). -/
def incompleteSelections : String → String := fun id =>
  if id = "matchbox-2" then "Red and Red"
  else if id = "matchbox-3" then "Red and White"
  else ""

/-! ## Helper lemmas -/

/-- The derived correct label depends only on the contents field. -/
theorem getCorrectLabelForBox_congr {a b : Box} (h : a.contents = b.contents) :
    getCorrectLabelForBox a = getCorrectLabelForBox b := by
  simp [getCorrectLabelForBox, h]

/-- The hardcoded fallback configuration satisfies all three invariants. -/
theorem setFallbackConfiguration_valid : validConfiguration setFallbackConfiguration := by
  decide

/-- Whatever permutations the two shuffles produce, a successful attempt of
`tryGenerateValidConfiguration` yields a valid configuration (checked over
all 36 shuffle pairs). -/
theorem attempt_valid_of_perms :
    ∀ sc ∈ GAME_CONFIG.BOX_CONTENTS.permutations',
      ∀ sl ∈ GAME_CONFIG.BOX_LABELS.permutations',
        attemptOutcomeValid (tryGenerateValidConfiguration sc sl) := by
  decide

theorem generatePuzzleConfigurationAux_valid
    (l : List (List String × List String))
    (h : ∀ p ∈ l, List.Perm p.1 GAME_CONFIG.BOX_CONTENTS ∧
      List.Perm p.2 GAME_CONFIG.BOX_LABELS) :
    validConfiguration (generatePuzzleConfigurationAux l) := by
  induction l with
  | nil => exact setFallbackConfiguration_valid
  | cons p rest ih =>
    have hp := h p (List.mem_cons_self p rest)
    have hv := attempt_valid_of_perms p.1 (List.mem_permutations'.mpr hp.1)
      p.2 (List.mem_permutations'.mpr hp.2)
    cases htry : tryGenerateValidConfiguration p.1 p.2 with
    | none =>
      simpa [generatePuzzleConfigurationAux, htry] using
        ih (fun q hq => h q (List.mem_cons_of_mem p hq))
    | some boxes =>
      rw [htry] at hv
      simpa [generatePuzzleConfigurationAux, htry, attemptOutcomeValid] using hv

theorem generatePuzzleConfigurationAux_exhausted
    (l : List (List String × List String))
    (h : ∀ p ∈ l, tryGenerateValidConfiguration p.1 p.2 = none) :
    generatePuzzleConfigurationAux l = setFallbackConfiguration := by
  induction l with
  | nil => rfl
  | cons p rest ih =>
    have hp := h p (List.mem_cons_self p rest)
    rw [generatePuzzleConfigurationAux, hp]
    exact ih (fun q hq => h q (List.mem_cons_of_mem p hq))

theorem generateAttemptCountAux_le_length (l : List (List String × List String)) :
    generateAttemptCountAux l ≤ l.length := by
  induction l with
  | nil => exact Nat.le_refl 0
  | cons p rest ih =>
    cases htry : tryGenerateValidConfiguration p.1 p.2 with
    | some boxes =>
      simp [generateAttemptCountAux, htry]
    | none =>
      simp only [generateAttemptCountAux, htry, List.length_cons]
      omega

theorem calculateDetails_filter_length (selections : String → String)
    (idx : Nat) (boxes : List Box) :
    ((calculateDetails selections idx boxes).filter (fun d => d.isCorrect)).length =
      (boxes.filter (fun b => selections b.id == getCorrectLabelForBox b)).length := by
  induction boxes generalizing idx with
  | nil => rfl
  | cons b rest ih =>
    by_cases h : (selections b.id == getCorrectLabelForBox b) = true
    · simp [calculateDetails, List.filter_cons, h, ih]
    · simp [calculateDetails, List.filter_cons, h, ih]

theorem calculateDetails_all_correct (selections : String → String)
    (idx : Nat) (boxes : List Box)
    (hall : ∀ b ∈ boxes, selections b.id = getCorrectLabelForBox b) :
    ∀ d ∈ calculateDetails selections idx boxes, d.isCorrect = true := by
  induction boxes generalizing idx with
  | nil => intro d hd; cases hd
  | cons b rest ih =>
    intro d hd
    rcases List.mem_cons.mp hd with h | h
    · subst h
      show (selections b.id == getCorrectLabelForBox b) = true
      exact beq_iff_eq.mpr (hall b (List.mem_cons_self _ _))
    · exact ih (idx + 1) (fun x hx => hall x (List.mem_cons_of_mem _ hx)) d h

/-- Restricted to the three content kinds, the correct-label lookup is
injective (checked over all nine pairs). -/
theorem correctLabel_ne_of_ne :
    ∀ x ∈ GAME_CONFIG.BOX_CONTENTS, ∀ y ∈ GAME_CONFIG.BOX_CONTENTS, x ≠ y →
      getCorrectLabelForBox ⟨"", x, ""⟩ ≠ getCorrectLabelForBox ⟨"", y, ""⟩ := by
  decide

/-- On the three content kinds the lookup never returns the empty string. -/
theorem correctLabel_ne_empty_base :
    ∀ c ∈ GAME_CONFIG.BOX_CONTENTS, getCorrectLabelForBox ⟨"", c, ""⟩ ≠ "" := by
  decide

theorem calculateDetails_unassigned_incorrect (selections : String → String)
    (idx : Nat) (boxes : List Box)
    (hall : ∀ b ∈ boxes, b.contents ∈ GAME_CONFIG.BOX_CONTENTS) :
    ∀ d ∈ calculateDetails selections idx boxes,
      d.userSelection = "" → d.isCorrect = false := by
  induction boxes generalizing idx with
  | nil => intro d hd; cases hd
  | cons b rest ih =>
    intro d hd hsel
    rcases List.mem_cons.mp hd with h | h
    · subst h
      have hne : getCorrectLabelForBox b ≠ "" :=
        ne_of_eq_of_ne (@getCorrectLabelForBox_congr b ⟨"", b.contents, ""⟩ rfl)
          (correctLabel_ne_empty_base b.contents (hall b (List.mem_cons_self _ _)))
      have hs : selections b.id = "" := hsel
      show (selections b.id == getCorrectLabelForBox b) = false
      rw [hs]
      exact beq_eq_false_iff_ne.mpr (fun he => hne he.symm)
    · exact ih (idx + 1) (fun x hx => hall x (List.mem_cons_of_mem _ hx)) d h hsel

theorem calculateDetails_congr (selections : String → String)
    (boxes boxes' : List Box)
    (h : List.Forall₂ (fun a b => a.id = b.id ∧ a.contents = b.contents) boxes boxes') :
    ∀ idx, calculateDetails selections idx boxes = calculateDetails selections idx boxes' := by
  induction h with
  | nil => intro idx; rfl
  | cons hab hrest ih =>
    intro idx
    obtain ⟨hid, hcont⟩ := hab
    simp only [calculateDetails]
    rw [hid, hcont, getCorrectLabelForBox_congr hcont, ih]

/-! ## Claim theorems -/

/-- Claim C1: every configuration the generator produces — by a successful
randomized attempt or by the fallback — has contents that are exactly the
three distinct content kinds, labels that are exactly the three distinct
label kinds, and every box's label differs from the true label derived from
its contents. The random source is any list of shuffle outcomes, each shuffle
being (as `Array.prototype.sort` guarantees) a permutation of the base list. -/
theorem generated_configuration_valid
    (randomAttempts : List (List String × List String))
    (h : ∀ p ∈ randomAttempts,
      List.Perm p.1 GAME_CONFIG.BOX_CONTENTS ∧ List.Perm p.2 GAME_CONFIG.BOX_LABELS) :
    validConfiguration (generatePuzzleConfiguration randomAttempts) :=
  generatePuzzleConfigurationAux_valid _
    (fun p hp => h p (List.take_subset GAME_CONFIG.MAX_ATTEMPTS randomAttempts hp))

theorem generated_configuration_valid_witness :
    (∀ p ∈ [(["red-red", "white-white", "red-white"],
             ["White and White", "Red and Red", "Red and White"])],
        List.Perm (Prod.fst p) GAME_CONFIG.BOX_CONTENTS ∧
        List.Perm (Prod.snd p) GAME_CONFIG.BOX_LABELS) ∧
    validConfiguration (generatePuzzleConfiguration
      [(["red-red", "white-white", "red-white"],
        ["White and White", "Red and Red", "Red and White"])]) :=
  ⟨by decide, generated_configuration_valid _ (by decide)⟩

/-- Claim C2, counterexample: invoking the evaluator with an incomplete
selection map (matchbox-1 unassigned) does NOT trigger any
precondition-violation path — `calculateResults` silently returns an
ordinary partial score (2 of 3) over the fallback configuration. -/
theorem incomplete_guess_silent_score_counterexample :
    incompleteSelections "matchbox-1" = "" ∧
    (calculateResults setFallbackConfiguration incompleteSelections).correct = 2 ∧
    (calculateResults setFallbackConfiguration incompleteSelections).total = 3 ∧
    (calculateResults setFallbackConfiguration incompleteSelections).details.length = 3 := by
  decide

/-- Claim C2 as amended: when evaluation is invoked with an incomplete
selection map the evaluator signals nothing — it returns an ordinary result
in which every unassigned box (empty selection) is simply scored as
incorrect, the empty string never equalling the derived true label of a box
whose contents are one of the three content kinds. -/
theorem incomplete_guess_scored_incorrect (boxes : List Box)
    (selections : String → String)
    (h : ∀ b ∈ boxes, b.contents ∈ GAME_CONFIG.BOX_CONTENTS) :
    (calculateResults boxes selections).total = boxes.length ∧
    ∀ d ∈ (calculateResults boxes selections).details,
      d.userSelection = "" → d.isCorrect = false :=
  ⟨rfl, calculateDetails_unassigned_incorrect selections 0 boxes h⟩

theorem incomplete_guess_scored_incorrect_witness :
    (calculateResults setFallbackConfiguration incompleteSelections).total =
        setFallbackConfiguration.length ∧
    ∀ d ∈ (calculateResults setFallbackConfiguration incompleteSelections).details,
      d.userSelection = "" → d.isCorrect = false :=
  incomplete_guess_scored_incorrect setFallbackConfiguration incompleteSelections (by decide)

/-- Claim C3: if every bounded randomized attempt fails, the generator
returns the hardcoded fallback configuration, that fallback satisfies all
three invariants, and hence the call still completes with a structurally
valid configuration. -/
theorem fallback_on_exhaustion_valid
    (randomAttempts : List (List String × List String))
    (h : ∀ p ∈ randomAttempts, tryGenerateValidConfiguration p.1 p.2 = none) :
    generatePuzzleConfiguration randomAttempts = setFallbackConfiguration ∧
    validConfiguration setFallbackConfiguration ∧
    validConfiguration (generatePuzzleConfiguration randomAttempts) := by
  have he : generatePuzzleConfiguration randomAttempts = setFallbackConfiguration :=
    generatePuzzleConfigurationAux_exhausted _
      (fun p hp => h p (List.take_subset GAME_CONFIG.MAX_ATTEMPTS randomAttempts hp))
  exact ⟨he, setFallbackConfiguration_valid, he ▸ setFallbackConfiguration_valid⟩

theorem fallback_on_exhaustion_valid_witness :
    generatePuzzleConfiguration [(([] : List String), ([] : List String))] =
        setFallbackConfiguration ∧
    validConfiguration setFallbackConfiguration ∧
    validConfiguration (generatePuzzleConfiguration [(([] : List String), ([] : List String))]) :=
  fallback_on_exhaustion_valid _ (by decide)

/-- Claim C4: the content-to-label derivation is a total, deterministic, pure
function: on each of the three content kinds it returns the same label
whatever the rest of the box looks like, and restricted to the three content
kinds its image is exactly the three distinct label kinds. -/
theorem correct_label_bijection :
    (∀ id l, getCorrectLabelForBox ⟨id, "white-white", l⟩ = "White and White") ∧
    (∀ id l, getCorrectLabelForBox ⟨id, "red-red", l⟩ = "Red and Red") ∧
    (∀ id l, getCorrectLabelForBox ⟨id, "red-white", l⟩ = "Red and White") ∧
    GAME_CONFIG.BOX_CONTENTS.map (fun c => getCorrectLabelForBox ⟨"", c, ""⟩) =
      GAME_CONFIG.BOX_LABELS ∧
    GAME_CONFIG.BOX_LABELS.Nodup :=
  ⟨fun _ _ => rfl, fun _ _ => rfl, fun _ _ => rfl, by decide, by decide⟩

/-- Claim C5: the evaluator compares each box's guess with its derived true
label by value equality, the aggregate score is the count of those equalities
over the boxes (with the total fixed at 3), and a guess set equal to the
true-label mapping scores 3 with every per-box match true. -/
theorem evaluation_counts_matches (boxes : List Box) (selections : String → String)
    (hlen : boxes.length = 3) :
    (calculateResults boxes selections).total = 3 ∧
    (calculateResults boxes selections).correct =
      (boxes.filter (fun b => selections b.id == getCorrectLabelForBox b)).length ∧
    ((∀ b ∈ boxes, selections b.id = getCorrectLabelForBox b) →
      (calculateResults boxes selections).correct = 3 ∧
      ∀ d ∈ (calculateResults boxes selections).details, d.isCorrect = true) := by
  have hfilter : (calculateResults boxes selections).correct =
      (boxes.filter (fun b => selections b.id == getCorrectLabelForBox b)).length :=
    calculateDetails_filter_length selections 0 boxes
  refine ⟨hlen, hfilter, ?_⟩
  intro hall
  have hself : boxes.filter (fun b => selections b.id == getCorrectLabelForBox b) = boxes :=
    List.filter_eq_self.mpr (fun b hb => beq_iff_eq.mpr (hall b hb))
  refine ⟨?_, calculateDetails_all_correct selections 0 boxes hall⟩
  rw [hfilter, hself, hlen]

theorem evaluation_counts_matches_witness :
    (calculateResults setFallbackConfiguration (fun id =>
      if id = "matchbox-1" then "White and White"
      else if id = "matchbox-2" then "Red and Red"
      else "Red and White")).correct = 3 :=
  ((evaluation_counts_matches setFallbackConfiguration _ rfl).2.2 (by decide)).1

/-- Claim C6: over any configuration whose contents are the three distinct
content kinds, a guess set equal to the true-label mapping except that the
guesses of the first two boxes are swapped scores exactly 1. -/
theorem swapped_guess_scores_one (b1 b2 b3 : Box) (selections : String → String)
    (hperm : List.Perm [b1.contents, b2.contents, b3.contents] GAME_CONFIG.BOX_CONTENTS)
    (h1 : selections b1.id = getCorrectLabelForBox b2)
    (h2 : selections b2.id = getCorrectLabelForBox b1)
    (h3 : selections b3.id = getCorrectLabelForBox b3) :
    (calculateResults [b1, b2, b3] selections).correct = 1 := by
  have hmem1 : b1.contents ∈ GAME_CONFIG.BOX_CONTENTS := hperm.subset (by simp)
  have hmem2 : b2.contents ∈ GAME_CONFIG.BOX_CONTENTS := hperm.subset (by simp)
  have hnodup : List.Nodup [b1.contents, b2.contents, b3.contents] :=
    hperm.nodup_iff.mpr (by decide)
  have hne : b1.contents ≠ b2.contents := by
    intro he
    exact (List.nodup_cons.mp hnodup).1 (by simp [he])
  have hlabne : getCorrectLabelForBox b1 ≠ getCorrectLabelForBox b2 := by
    rw [@getCorrectLabelForBox_congr b1 ⟨"", b1.contents, ""⟩ rfl,
      @getCorrectLabelForBox_congr b2 ⟨"", b2.contents, ""⟩ rfl]
    exact correctLabel_ne_of_ne _ hmem1 _ hmem2 hne
  have c1 : (selections b1.id == getCorrectLabelForBox b1) = false := by
    rw [h1]
    exact beq_eq_false_iff_ne.mpr (Ne.symm hlabne)
  have c2 : (selections b2.id == getCorrectLabelForBox b2) = false := by
    rw [h2]
    exact beq_eq_false_iff_ne.mpr hlabne
  have c3 : (selections b3.id == getCorrectLabelForBox b3) = true := by
    rw [h3]
    exact beq_self_eq_true _
  simp [calculateResults, calculateDetails, List.filter_cons, c1, c2, c3]

theorem swapped_guess_scores_one_witness :
    (calculateResults
      [⟨"matchbox-1", "white-white", "Red and Red"⟩,
       ⟨"matchbox-2", "red-red", "Red and White"⟩,
       ⟨"matchbox-3", "red-white", "White and White"⟩]
      (fun id =>
        if id = "matchbox-1" then "Red and Red"
        else if id = "matchbox-2" then "White and White"
        else "Red and White")).correct = 1 :=
  swapped_guess_scores_one _ _ _ _ (by decide) (by decide) (by decide) (by decide)

/-- Claim C7: generation always terminates — the retry loop performs at most
`MAX_ATTEMPTS` (= 50) calls to `tryGenerateValidConfiguration` on any run of
the random source before the deterministic fallback. -/
theorem generation_attempts_bounded
    (randomAttempts : List (List String × List String)) :
    generateAttemptCount randomAttempts ≤ GAME_CONFIG.MAX_ATTEMPTS := by
  have h := generateAttemptCountAux_le_length (randomAttempts.take GAME_CONFIG.MAX_ATTEMPTS)
  calc generateAttemptCount randomAttempts
      ≤ (randomAttempts.take GAME_CONFIG.MAX_ATTEMPTS).length := h
    _ ≤ GAME_CONFIG.MAX_ATTEMPTS := by
        rw [List.length_take]
        exact Nat.min_le_left _ _

/-- Claim C8: the derived true label depends only on a box's contents, never
on its displayed label; consequently the whole evaluation result is unchanged
when boxes keep their ids and contents but change displayed labels. -/
theorem verdict_ignores_displayed_label (boxes boxes' : List Box)
    (selections : String → String)
    (h : List.Forall₂ (fun a b => a.id = b.id ∧ a.contents = b.contents) boxes boxes') :
    (∀ a b : Box, a.contents = b.contents →
        getCorrectLabelForBox a = getCorrectLabelForBox b) ∧
    calculateResults boxes selections = calculateResults boxes' selections := by
  refine ⟨fun a b hab => getCorrectLabelForBox_congr hab, ?_⟩
  have hd := calculateDetails_congr selections boxes boxes' h 0
  simp [calculateResults, hd, h.length_eq]

theorem verdict_ignores_displayed_label_witness :
    calculateResults setFallbackConfiguration incompleteSelections =
      calculateResults
        [⟨"matchbox-1", "white-white", "White and White"⟩,
         ⟨"matchbox-2", "red-red", "Red and Red"⟩,
         ⟨"matchbox-3", "red-white", "Red and White"⟩] incompleteSelections :=
  (verdict_ignores_displayed_label _ _ _
    (List.Forall₂.cons ⟨rfl, rfl⟩ (List.Forall₂.cons ⟨rfl, rfl⟩
      (List.Forall₂.cons ⟨rfl, rfl⟩ List.Forall₂.nil)))).2

/-- Over the nine content-kind/label-kind pairs, the generator's normalizing
match predicate agrees with the evaluator's lookup (checked exhaustively with
a placeholder id, to which neither function is sensitive). -/
theorem checkMatch_iff_lookup_base :
    ∀ c ∈ GAME_CONFIG.BOX_CONTENTS, ∀ l ∈ GAME_CONFIG.BOX_LABELS,
      (checkContentsMatchLabel ⟨"", c, l⟩ = true ↔
        l = getCorrectLabelForBox ⟨"", c, l⟩) := by
  decide

/-- Claim C9: for every content kind and label kind, the string-normalization
predicate `checkContentsMatchLabel` holds exactly when the label equals the
evaluator's derived label `getCorrectLabelForBox`, whatever the box id — so a
label accepted as mismatching during generation is exactly a label differing
from the evaluator's derived true label. -/
theorem match_predicate_agrees_with_lookup (c l : String)
    (hc : c ∈ GAME_CONFIG.BOX_CONTENTS) (hl : l ∈ GAME_CONFIG.BOX_LABELS)
    (id : String) :
    (checkContentsMatchLabel ⟨id, c, l⟩ = true ↔
      l = getCorrectLabelForBox ⟨id, c, l⟩) :=
  checkMatch_iff_lookup_base c hc l hl

theorem match_predicate_agrees_with_lookup_witness :
    (checkContentsMatchLabel ⟨"matchbox-1", "white-white", "Red and Red"⟩ = true ↔
      "Red and Red" =
        getCorrectLabelForBox ⟨"matchbox-1", "white-white", "Red and Red"⟩) :=
  match_predicate_agrees_with_lookup "white-white" "Red and Red"
    (by decide) (by decide) "matchbox-1"

/-- Away from the names inherited from `Object.prototype`, the engine-level
lookup agrees with the simplified string-valued model: an own-property hit
returns its label, an absent key returns the empty string. -/
theorem getCorrectLabelForBoxJs_agrees (box : Box)
    (hp : box.contents ∉ objectPrototypeProps) :
    getCorrectLabelForBoxJs box = JsLookupValue.str (getCorrectLabelForBox box) := by
  have hc : objectPrototypeProps.contains box.contents = false := by
    cases hcon : objectPrototypeProps.contains box.contents with
    | false => rfl
    | true => exact absurd (List.mem_of_elem_eq_true hcon) hp
  by_cases h1 : (box.contents == "white-white") = true
  · simp [getCorrectLabelForBoxJs, getCorrectLabelForBox, h1]
  · by_cases h2 : (box.contents == "red-red") = true
    · simp [getCorrectLabelForBoxJs, getCorrectLabelForBox, h1, h2]
    · by_cases h3 : (box.contents == "red-white") = true
      · simp [getCorrectLabelForBoxJs, getCorrectLabelForBox, h1, h2, h3]
      · simp [getCorrectLabelForBoxJs, getCorrectLabelForBox, h1, h2, h3, hc, hp]

/-- Claim C10, counterexample: the contents string `toString` is none of the
three content kinds, yet the lookup does NOT return the empty string — the
bracket access finds the member inherited from `Object.prototype`, which is
truthy, so `|| ''` keeps it. -/
theorem lookup_inherits_prototype_counterexample :
    "toString" ∉ GAME_CONFIG.BOX_CONTENTS ∧
    getCorrectLabelForBoxJs ⟨"matchbox-1", "toString", ""⟩ =
      JsLookupValue.protoMember "toString" ∧
    getCorrectLabelForBoxJs ⟨"matchbox-1", "toString", ""⟩ ≠ JsLookupValue.str "" := by
  decide

/-- Claim C10 as amended: the lookup is total over arbitrary contents strings
and never faults, but its fallback is narrower than claimed — a box whose
contents are neither one of the three content kinds nor the name of an
`Object.prototype` member (the empty string of an unassigned box is such a
string) gets the empty string back, while an inherited prototype name gets
that truthy inherited member back instead. -/
theorem lookup_total_on_unknown_contents (id c l : String)
    (h : c ∉ GAME_CONFIG.BOX_CONTENTS) :
    (c ∉ objectPrototypeProps →
      getCorrectLabelForBoxJs ⟨id, c, l⟩ = JsLookupValue.str "") ∧
    (c ∈ objectPrototypeProps →
      getCorrectLabelForBoxJs ⟨id, c, l⟩ = JsLookupValue.protoMember c) := by
  simp only [GAME_CONFIG, List.mem_cons, List.not_mem_nil, or_false, not_or] at h
  obtain ⟨h1, h2, h3⟩ := h
  constructor
  · intro hp
    rw [getCorrectLabelForBoxJs_agrees ⟨id, c, l⟩ hp]
    simp [getCorrectLabelForBox, h1, h2, h3]
  · intro hmem
    have hcontains : objectPrototypeProps.contains c = true :=
      List.elem_eq_true_of_mem hmem
    simp [getCorrectLabelForBoxJs, h1, h2, h3, hcontains, hmem]

theorem lookup_total_on_unknown_contents_witness :
    getCorrectLabelForBoxJs ⟨"matchbox-1", "", ""⟩ = JsLookupValue.str "" :=
  (lookup_total_on_unknown_contents "matchbox-1" "" "" (by decide)).1 (by decide)
